import Mathlib

/-!
Verification development for the jkit resource-object lifecycle and
lazy-validation protocol (FHU-yezi/Jianshu-Research-Tools, `src/jkit/`).

Python code is shallowly embedded: pure functions become Lean functions,
fallible code returns `Except PyErr`, network-touching operations take the
scripted transport responses as explicit arguments and additionally return
the list of requests they issued.  Machine integers are embedded as `Int`
(Python ints are unbounded), floats/decimals as `ℚ`.
-/

/-- Embeds `httpx.HTTPStatusError` as consumed by jkit: the numeric HTTP
status code plus the decoded error body's first embedded error code
(`data["error"][0]["code"]`, read by `Assets.fp_to_ftn` / `ftn_to_fp`). -/
structure HTTPStatusError where
  statusCode : Nat
  firstErrorCode : Int
  deriving DecidableEq, Repr

/-- The Python exceptions raised by the embedded jkit code
(`jkit.exceptions` plus the builtin `ValueError` / `KeyError` /
`AssertionError`). -/
inductive PyErr where
  | valueError (msg : String)
  | assertionError
  | keyError (key : String)
  | validationError (msg : String)
  | resourceUnavailable (msg : String)
  | httpStatusError (e : HTTPStatusError)
  | balanceNotEnough (msg : String)
  | weeklyConvertLimitExceeded (msg : String)
  deriving DecidableEq, Repr

/-! ## Identifier codec (`src/jkit/identifier_convert.py`) -/

/-- Embeds Python `str.replace(pat, "")` on `List Char`: scan left to
right, delete each non-overlapping occurrence of `pat`, continue scanning
after the deleted occurrence. -/
def replaceList (pat : List Char) : List Char → List Char
  | [] => []
  | c :: rest =>
    if h : pat ≠ [] ∧ pat <+: (c :: rest) then
      replaceList pat (List.drop pat.length (c :: rest))
    else
      c :: replaceList pat rest
  termination_by l => l.length
  decreasing_by
    · have hp : 0 < pat.length := List.length_pos.mpr h.1
      simp only [List.length_drop, List.length_cons]
      omega
    · simp only [List.length_cons]
      omega

/-- Embeds Python `s.replace(old, "")` on `String`. -/
def pyStrReplaceEmpty (s old : String) : String :=
  String.mk (replaceList old.toList s.toList)

/-- Modelled from the spec: `jkit/identifier_check.py` is not under `src/`
(only its callers are).  Per spec §3/§4.1 a slug is a short opaque
alphanumeric identifier segment; we model a slug character as an
alphanumeric character. -/
def isSlugChar (c : Char) : Bool := c.isAlphanum

/-- A nonempty all-alphanumeric character list (the modelled slug format). -/
def slugCharsOk (l : List Char) : Bool := !l.isEmpty && l.all isSlugChar

/-- Modelled from the spec: URL validation "must reject any URL not
matching the exact canonical path pattern for that resource kind
(e.g. user URLs must match `/u/<slug>` under the platform's domain)"
(spec §4.1).  `base` is the canonical URL head for the kind. -/
def urlMatchesBase (base l : List Char) : Bool :=
  base.isPrefixOf l && slugCharsOk (List.drop base.length l)

/-- Modelled from the spec: `is_user_slug` (jkit/identifier_check.py,
absent from `src/`). -/
def is_user_slug (x : String) : Bool := slugCharsOk x.toList

/-- Modelled from the spec: `is_user_url` — exact canonical pattern
`https://www.jianshu.com/u/<slug>`. -/
def is_user_url (x : String) : Bool :=
  urlMatchesBase "https://www.jianshu.com/u/".toList x.toList

/-- Modelled from the spec: `is_collection_slug`. -/
def is_collection_slug (x : String) : Bool := slugCharsOk x.toList

/-- Modelled from the spec: `is_collection_url` — canonical pattern
`https://www.jianshu.com/c/<slug>`. -/
def is_collection_url (x : String) : Bool :=
  urlMatchesBase "https://www.jianshu.com/c/".toList x.toList

/-- Modelled from the spec: `is_island_slug`. -/
def is_island_slug (x : String) : Bool := slugCharsOk x.toList

/-- Modelled from the spec: `is_island_url` — canonical pattern
`https://www.jianshu.com/g/<slug>`. -/
def is_island_url (x : String) : Bool :=
  urlMatchesBase "https://www.jianshu.com/g/".toList x.toList

/-- `identifier_convert.user_slug_to_url`:
raise `ValueError(f"{x} 不是有效的 user_slug")` if invalid, else
`f"https://www.jianshu.com/u/{x}"`. -/
def user_slug_to_url (x : String) : Except PyErr String :=
  if !is_user_slug x then .error (.valueError (x ++ " 不是有效的 user_slug"))
  else .ok ("https://www.jianshu.com/u/" ++ x)

/-- `identifier_convert.user_url_to_slug`:
raise `ValueError(f"{x} 不是有效的 user_url")` if invalid, else
`x.replace("https://www.jianshu.com/u/", "").replace("/", "")`. -/
def user_url_to_slug (x : String) : Except PyErr String :=
  if !is_user_url x then .error (.valueError (x ++ " 不是有效的 user_url"))
  else .ok (pyStrReplaceEmpty (pyStrReplaceEmpty x "https://www.jianshu.com/u/") "/")

/-- `identifier_convert.collection_slug_to_url`. -/
def collection_slug_to_url (x : String) : Except PyErr String :=
  if !is_collection_slug x then .error (.valueError (x ++ " 不是有效的 collection_slug"))
  else .ok ("https://www.jianshu.com/c/" ++ x)

/-- `identifier_convert.collection_url_to_slug`. -/
def collection_url_to_slug (x : String) : Except PyErr String :=
  if !is_collection_url x then .error (.valueError (x ++ " 不是有效的 collection_url"))
  else .ok (pyStrReplaceEmpty (pyStrReplaceEmpty x "https://www.jianshu.com/c/") "/")

/-- `identifier_convert.island_slug_to_url`. -/
def island_slug_to_url (x : String) : Except PyErr String :=
  if !is_island_slug x then .error (.valueError (x ++ " 不是有效的 island_slug"))
  else .ok ("https://www.jianshu.com/g/" ++ x)

/-- `identifier_convert.island_url_to_slug`. -/
def island_url_to_slug (x : String) : Except PyErr String :=
  if !is_island_url x then .error (.valueError (x ++ " 不是有效的 island_url"))
  else .ok (pyStrReplaceEmpty (pyStrReplaceEmpty x "https://www.jianshu.com/g/") "/")

/-! ### Codec lemmas -/

theorem replaceList_nil (pat : List Char) : replaceList pat [] = [] := by
  rw [replaceList]

theorem replaceList_cons (pat : List Char) (c : Char) (rest : List Char) :
    replaceList pat (c :: rest) =
      if pat ≠ [] ∧ pat <+: (c :: rest) then
        replaceList pat (List.drop pat.length (c :: rest))
      else
        c :: replaceList pat rest := by
  rw [replaceList]
  split <;> simp_all

theorem replaceList_append_self (pat s : List Char) (hp : pat ≠ []) :
    replaceList pat (pat ++ s) = replaceList pat s := by
  cases pat with
  | nil => exact absurd rfl hp
  | cons c p =>
    rw [List.cons_append, replaceList_cons]
    rw [if_pos ⟨hp, List.cons_append c p s ▸ List.prefix_append (c :: p) s⟩]
    rw [← List.cons_append, List.drop_left]

theorem replaceList_eq_self (pat s : List Char) (d : Char)
    (hd : d ∈ pat) (hds : d ∉ s) : replaceList pat s = s := by
  induction s with
  | nil => exact replaceList_nil pat
  | cons c rest ih =>
    have hnot : ¬(pat ≠ [] ∧ pat <+: (c :: rest)) := by
      rintro ⟨-, hpre⟩
      exact hds (hpre.subset hd)
    rw [replaceList_cons, if_neg hnot]
    have hds' : d ∉ rest := fun hmem => hds (List.mem_cons_of_mem c hmem)
    rw [ih hds']

theorem slash_not_mem_of_slugCharsOk (s : List Char) (h : slugCharsOk s = true) :
    ('/' : Char) ∉ s := by
  intro hmem
  have hall := (Bool.and_eq_true _ _ |>.mp h).2
  have := (List.all_eq_true.mp hall) _ hmem
  simp [isSlugChar, Char.isAlphanum, Char.isAlpha, Char.isLower, Char.isUpper,
    Char.isDigit] at this

theorem isPrefixOf_append_self (l s : List Char) : l.isPrefixOf (l ++ s) = true := by
  simp [ List.isPrefixOf_iff_prefix]

/-- Core roundtrip fact: stripping the canonical base then all slashes from
`base ++ slug` recovers the slug, provided the base contains a slash and the
slug is slash-free. -/
theorem codec_roundtrip_core (base s : List Char) (hb : base ≠ [])
    (hd : ('/' : Char) ∈ base) (hs : ('/' : Char) ∉ s) :
    replaceList ['/'] (replaceList base (base ++ s)) = s := by
  rw [replaceList_append_self base s hb]
  rw [replaceList_eq_self base s '/' hd hs]
  rw [replaceList_eq_self ['/'] s '/' (List.mem_singleton.mpr rfl) hs]

theorem urlMatchesBase_append (base s : List Char) (hs : slugCharsOk s = true) :
    urlMatchesBase base (base ++ s) = true := by
  unfold urlMatchesBase
  rw [isPrefixOf_append_self, List.drop_left, hs]
  rfl

/-- Assembled roundtrip on `String`, generic in the canonical base. -/
theorem slug_roundtrip_strings (baseStr s : String) (hb : baseStr.toList ≠ [])
    (hd : ('/' : Char) ∈ baseStr.toList) (hs : slugCharsOk s.toList = true) :
    urlMatchesBase baseStr.toList (baseStr ++ s).toList = true ∧
    pyStrReplaceEmpty (pyStrReplaceEmpty (baseStr ++ s) baseStr) "/" = s := by
  have hlist : (baseStr ++ s).toList = baseStr.toList ++ s.toList := rfl
  constructor
  · rw [hlist]
    exact urlMatchesBase_append baseStr.toList s.toList hs
  · show String.mk (replaceList "/".toList (String.mk
      (replaceList baseStr.toList (baseStr ++ s).toList)).toList) = s
    have hslash : ('/' : Char) ∉ s.toList := slash_not_mem_of_slugCharsOk _ hs
    rw [hlist]
    show String.mk (replaceList ['/'] (replaceList baseStr.toList
      (baseStr.toList ++ s.toList))) = s
    rw [codec_roundtrip_core baseStr.toList s.toList hb hd hslash]
    cases s
    rfl

/-- C5: for every resource kind's identifier codec and every valid slug `s`
of that kind, `url_to_slug(slug_to_url(s)) == s`; and applying `slug_to_url`
(or `url_to_slug`) to an input failing the kind's format validation raises a
format error naming the offending value and the resource kind. -/
theorem c5_identifier_codec_roundtrip :
    (∀ s, is_user_slug s = true →
      (user_slug_to_url s).bind user_url_to_slug = .ok s) ∧
    (∀ s, is_collection_slug s = true →
      (collection_slug_to_url s).bind collection_url_to_slug = .ok s) ∧
    (∀ s, is_island_slug s = true →
      (island_slug_to_url s).bind island_url_to_slug = .ok s) ∧
    (∀ x, is_user_slug x = false →
      user_slug_to_url x = .error (.valueError (x ++ " 不是有效的 user_slug"))) ∧
    (∀ x, is_user_url x = false →
      user_url_to_slug x = .error (.valueError (x ++ " 不是有效的 user_url"))) ∧
    (∀ x, is_collection_slug x = false →
      collection_slug_to_url x =
        .error (.valueError (x ++ " 不是有效的 collection_slug"))) ∧
    (∀ x, is_island_url x = false →
      island_url_to_slug x = .error (.valueError (x ++ " 不是有效的 island_url"))) := by
  refine ⟨?_, ?_, ?_, ?_, ?_, ?_, ?_⟩
  · intro s h
    have hr := slug_roundtrip_strings "https://www.jianshu.com/u/" s
      (by decide) (by decide) h
    simp only [user_slug_to_url, h, Bool.not_true, Bool.false_eq_true, if_false,
      Except.bind, user_url_to_slug, is_user_url, hr.1, Bool.not_true]
    rw [hr.2]
  · intro s h
    have hr := slug_roundtrip_strings "https://www.jianshu.com/c/" s
      (by decide) (by decide) h
    simp only [collection_slug_to_url, h, Bool.not_true, Bool.false_eq_true, if_false,
      Except.bind, collection_url_to_slug, is_collection_url, hr.1, Bool.not_true]
    rw [hr.2]
  · intro s h
    have hr := slug_roundtrip_strings "https://www.jianshu.com/g/" s
      (by decide) (by decide) h
    simp only [island_slug_to_url, h, Bool.not_true, Bool.false_eq_true, if_false,
      Except.bind, island_url_to_slug, is_island_url, hr.1, Bool.not_true]
    rw [hr.2]
  · intro x h
    simp [user_slug_to_url, h]
  · intro x h
    simp [user_url_to_slug, h]
  · intro x h
    simp [collection_slug_to_url, h]
  · intro x h
    simp [island_url_to_slug, h]

/-- Witness for C5 at concrete inputs. -/
theorem c5_identifier_codec_roundtrip_witness :
    (user_slug_to_url "ea36c8d8aabc").bind user_url_to_slug = .ok "ea36c8d8aabc" ∧
    (collection_slug_to_url "xxdqwe65").bind collection_url_to_slug = .ok "xxdqwe65" ∧
    (island_slug_to_url "92e6f7e62458").bind island_url_to_slug = .ok "92e6f7e62458" ∧
    user_slug_to_url "bad/slug" =
      .error (.valueError ("bad/slug" ++ " 不是有效的 user_slug")) ∧
    user_url_to_slug "https://example.com/u/ea36c8d8aabc" =
      .error (.valueError ("https://example.com/u/ea36c8d8aabc" ++ " 不是有效的 user_url")) :=
  ⟨c5_identifier_codec_roundtrip.1 _ (by decide),
   c5_identifier_codec_roundtrip.2.1 _ (by decide),
   c5_identifier_codec_roundtrip.2.2.1 _ (by decide),
   c5_identifier_codec_roundtrip.2.2.2.1 _ (by decide),
   c5_identifier_codec_roundtrip.2.2.2.2.1 _ (by decide)⟩

/-! ## Slug+URL construction (`src/jkit/_base.py`, `SlugAndUrlMixin`) -/

/-- `SlugAndUrlMixin._check_params` (src/jkit/_base.py lines 100-134).
The class attributes `_slug_check_func` / `_url_to_slug_func` (ClassVar,
possibly unset = `None`) are passed explicitly.  Returns the validated slug
or the raised exception. -/
def check_params (object_readable_name : String)
    (slugCheckFunc : Option (String → Bool))
    (urlToSlugFunc : Option (String → Except PyErr String))
    (slug : Option String) (url : Option String) : Except PyErr String :=
  match slug, url with
  | some _, some _ =>
    .error (.valueError (object_readable_name ++ " Slug 与" ++
      object_readable_name ++ "链接不可同时提供"))
  | some s, none =>
    match slugCheckFunc with
    | none => .error .assertionError
    | some f =>
      if !f s then
        .error (.valueError (s ++ " 不是有效的" ++ object_readable_name ++ " Slug"))
      else .ok s
  | none, some u =>
    match urlToSlugFunc with
    | none => .error .assertionError
    | some g => g u
  | none, none =>
    .error (.valueError ("必须提供" ++ object_readable_name ++ " Slug 或" ++
      object_readable_name ++ "链接"))

/-- Modelled from the spec: the concrete resources call
`SlugAndUrlResourceMixin.__init__`, whose body is absent from `src/` (the
snapshot's `SlugAndUrlMixin.__init__` is a stub that ignores its arguments);
per spec §4.3 both constructors "funnel through a shared validation routine"
— `_check_params`, which is present in `src/` and embedded above.  The
result is the stored `_slug`. -/
def slugAndUrl_init (object_readable_name : String)
    (slugCheckFunc : Option (String → Bool))
    (urlToSlugFunc : Option (String → Except PyErr String))
    (slug : Option String) (url : Option String) : Except PyErr String :=
  check_params object_readable_name slugCheckFunc urlToSlugFunc slug url

/-- `User.__init__` (src/jkit/user.py): the User class binds
`_resource_readable_name = "用户"`, `_slug_check_func = is_user_slug`,
`_url_to_slug_func = user_url_to_slug`. -/
def User.init (slug : Option String) (url : Option String) : Except PyErr String :=
  slugAndUrl_init "用户" (some is_user_slug) (some user_url_to_slug) slug url

/-- C3: constructing with both or neither identifier always fails;
constructing with exactly one valid identifier succeeds; an invalid single
identifier fails with a format error naming the resource kind. -/
theorem c3_construction_contract :
    (∀ name f g s u, check_params name (some f) (some g) (some s) (some u) =
      .error (.valueError (name ++ " Slug 与" ++ name ++ "链接不可同时提供"))) ∧
    (∀ name f g, check_params name (some f) (some g) none none =
      .error (.valueError ("必须提供" ++ name ++ " Slug 或" ++ name ++ "链接"))) ∧
    (∀ name f g s, f s = true →
      check_params name (some f) (some g) (some s) none = .ok s) ∧
    (∀ name f g s, f s = false →
      check_params name (some f) (some g) (some s) none =
        .error (.valueError (s ++ " 不是有效的" ++ name ++ " Slug"))) ∧
    (∀ name f g u, check_params name (some f) (some g) none (some u) = g u) ∧
    (∀ s, is_user_slug s = true → User.init (some s) none = .ok s) ∧
    (∀ u, is_user_url u = false → User.init none (some u) =
      .error (.valueError (u ++ " 不是有效的 user_url"))) := by
  refine ⟨fun name f g s u => rfl, fun name f g => rfl, ?_, ?_,
    fun name f g u => rfl, ?_, ?_⟩
  · intro name f g s h
    simp [check_params, h]
  · intro name f g s h
    simp [check_params, h]
  · intro s h
    simp [User.init, slugAndUrl_init, check_params, h]
  · intro u h
    simp [User.init, slugAndUrl_init, check_params, user_url_to_slug, h]

/-- Witness for C3 at concrete inputs. -/
theorem c3_construction_contract_witness :
    check_params "用户" (some is_user_slug) (some user_url_to_slug)
      (some "ea36c8d8aabc") (some "https://www.jianshu.com/u/ea36c8d8aabc") =
      .error (.valueError ("用户" ++ " Slug 与" ++ "用户" ++ "链接不可同时提供")) ∧
    check_params "用户" (some is_user_slug) (some user_url_to_slug) none none =
      .error (.valueError ("必须提供" ++ "用户" ++ " Slug 或" ++ "用户" ++ "链接")) ∧
    User.init (some "ea36c8d8aabc") none = .ok "ea36c8d8aabc" ∧
    check_params "用户" (some is_user_slug) (some user_url_to_slug)
      (some "bad/slug") none =
      .error (.valueError ("bad/slug" ++ " 不是有效的" ++ "用户" ++ " Slug")) ∧
    User.init none (some "ftp://www.jianshu.com/u/x") =
      .error (.valueError ("ftp://www.jianshu.com/u/x" ++ " 不是有效的 user_url")) :=
  ⟨c3_construction_contract.1 _ _ _ _ _,
   c3_construction_contract.2.1 _ _ _,
   c3_construction_contract.2.2.2.2.2.1 _ (by decide),
   c3_construction_contract.2.2.2.1 _ is_user_slug user_url_to_slug _ (by decide),
   c3_construction_contract.2.2.2.2.2.2 _ (by decide)⟩

/-! ## Resource identity: equality / hash / representation
(`src/jkit/_base.py`, `SlugAndUrlMixin.__eq__` lines 136-140,
`IdAndUrlMixin.__eq__` lines 164-168) -/

/-- The run-time state of a slug-identified resource object (e.g. `User`):
its stored `_slug` and its `_checked` flag.  In this jkit snapshot no
fetched data is cached on the object, so the checked flag is the only
non-identity state. -/
structure UserResource where
  slug : String
  checked : Bool
  deriving DecidableEq, Repr

/-- `SlugAndUrlMixin.__eq__`:
`isinstance(other, self.__class__) and self.slug == other.slug`.  Within the
embedded type the isinstance test is always true. -/
def UserResource.eq (a b : UserResource) : Bool := a.slug == b.slug

/-- `SlugAndUrlMixin.__repr__`: `f'{cls}(slug="{slug}")'`. -/
def UserResource.pyRepr (a : UserResource) : String :=
  "User(slug=\"" ++ a.slug ++ "\")"

/-- `SlugAndUrlMixin` defines `__eq__` (and no `__hash__`), so Python sets
the class's `__hash__` to `None` and instances are unhashable: `hash(obj)`
raises `TypeError`.  Embedded as the constantly-`none` hash. -/
def UserResource.pyHash : UserResource → Option Nat := fun _ => none

/-- The run-time state of an id-identified resource object (e.g.
`Notebook`, via `IdAndUrlMixin`). -/
structure NotebookResource where
  id : Int
  checked : Bool
  deriving DecidableEq, Repr

/-- `IdAndUrlMixin.__eq__`:
`isinstance(other, self.__class__) and self.id == other.id`. -/
def NotebookResource.eq (a b : NotebookResource) : Bool := a.id == b.id

/-- `IdAndUrlMixin.__repr__`: `f'{cls}(id="{id}")'`. -/
def NotebookResource.pyRepr (a : NotebookResource) : String :=
  "Notebook(id=\"" ++ toString a.id ++ "\")"

/-- Counterexample to C4: two equal (same slug, differing checked state)
resource objects cannot be hashed at all — `src/jkit/_base.py` defines
`__eq__` without `__hash__` on both identity mixins, so Python disables
hashing (`__hash__ = None`); "equal objects hash equal" fails. -/
theorem c4_identity_equality_counterexample :
    UserResource.eq ⟨"ea36c8d8aabc", false⟩ ⟨"ea36c8d8aabc", true⟩ = true ∧
    UserResource.pyHash ⟨"ea36c8d8aabc", false⟩ = none := by
  constructor
  · decide
  · rfl

/-- C4 (amended): two resource objects of the same kind compare equal iff
their identity values are equal, and equality and representation depend
only on identity (not on the checked flag or any fetched data); resource
objects are unhashable, since the mixins define `__eq__` without
`__hash__`. -/
theorem c4_identity_equality_amended :
    (∀ a b : UserResource, UserResource.eq a b = true ↔ a.slug = b.slug) ∧
    (∀ a b : UserResource, a.slug = b.slug →
      UserResource.pyRepr a = UserResource.pyRepr b) ∧
    (∀ a b : NotebookResource, NotebookResource.eq a b = true ↔ a.id = b.id) ∧
    (∀ a b : NotebookResource, a.id = b.id →
      NotebookResource.pyRepr a = NotebookResource.pyRepr b) ∧
    (∀ a : UserResource, UserResource.pyHash a = none) := by
  refine ⟨?_, ?_, ?_, ?_, fun a => rfl⟩
  · intro a b
    simp [UserResource.eq]
  · intro a b h
    simp [UserResource.pyRepr, h]
  · intro a b
    simp [NotebookResource.eq]
  · intro a b h
    simp [NotebookResource.pyRepr, h]

/-- Witness for C4 (amended) at concrete inputs. -/
theorem c4_identity_equality_amended_witness :
    (UserResource.eq ⟨"a1b2c3d4", false⟩ ⟨"a1b2c3d4", true⟩ = true ↔
      ("a1b2c3d4" : String) = "a1b2c3d4") ∧
    UserResource.pyRepr ⟨"a1b2c3d4", false⟩ = UserResource.pyRepr ⟨"a1b2c3d4", true⟩ ∧
    (NotebookResource.eq ⟨40458256, false⟩ ⟨40458256, true⟩ = true ↔
      (40458256 : Int) = 40458256) :=
  ⟨c4_identity_equality_amended.1 _ _,
   c4_identity_equality_amended.2.1 ⟨"a1b2c3d4", false⟩ ⟨"a1b2c3d4", true⟩ rfl,
   c4_identity_equality_amended.2.2.1 _ _⟩

/-! ## Checkable-resource protocol (`src/jkit/_base.py`, `CheckableMixin`;
`src/jkit/user.py`, `User.check`) -/

/-- `_ResourceCheckConfig` (src/jkit/config.py lines 66-76). -/
structure ResourceCheckConfig where
  auto_check : Bool
  force_check_safe_data : Bool
  deriving DecidableEq, Repr

/-- The defaults declared in `src/jkit/config.py`:
`auto_check: bool = True`, `force_check_safe_data: bool = False`. -/
def defaultResourceCheckConfig : ResourceCheckConfig := ⟨true, false⟩

/-- Modelled from the spec: `jkit/constants.py` is absent from `src/`; this
is the platform's canonical "not found" status (spec §4.4 / §7). -/
def _RESOURCE_UNAVAILABLE_STATUS_CODE : Nat := 404

/-- The requests the embedded operations issue over the transport
(`send_request` call sites, with the fields the claims are about). -/
inductive ApiRequest where
  | userCheckReq (slug : String)
  | collectionArticlesReq (slug : String) (page : Nat) (count : Nat) (orderedBy : String)
  | assetsTransactionsReq (path : String) (sinceId : Int) (maxId : Option Int)
  | walletExchangeReq (path : String) (count : ℚ)
  deriving DecidableEq, Repr

/-- `CheckableMixin.__init__`: `self._checked = False`. -/
def checkableMixin_init : Bool := false

/-- `User.check` (src/jkit/user.py lines 168-184): issue the existence
probe; on success set `_checked = True`; on `HTTPStatusError` with the
"not found" status raise `ResourceUnavailableError`, otherwise re-raise the
transport error unchanged.  `resp` is the scripted transport outcome; the
returned `Bool` is the new `_checked` value. -/
def User.check (slug : String) (resp : Except HTTPStatusError Unit)
    (_checked : Bool) : List ApiRequest × Except PyErr Bool :=
  ([.userCheckReq slug],
    match resp with
    | .ok _ => .ok true
    | .error e =>
      if e.statusCode = _RESOURCE_UNAVAILABLE_STATUS_CODE then
        .error (.resourceUnavailable
          ("用户 https://www.jianshu.com/u/" ++ slug ++ " 不存在或已注销 / 被封禁"))
      else .error (.httpStatusError e))
  -- the `else` branch of the try sets `self._checked = True`; on an
  -- exception the flag is left as `checked`

/-- `CheckableMixin._require_check` (src/jkit/_base.py lines 57-62):
`if self._checked or not CONFIG.resource_check.auto_check: return`, else
`await self.check(); self._checked = True`.  `checkFunc` is the concrete
resource's `check` bound method acting on the current flag. -/
def requireCheck (cfg : ResourceCheckConfig)
    (checkFunc : Bool → List ApiRequest × Except PyErr Bool)
    (checked : Bool) : List ApiRequest × Except PyErr Bool :=
  if checked || !cfg.auto_check then ([], .ok checked)
  else
    match checkFunc checked with
    | (reqs, .ok _) => (reqs, .ok true)
    | (reqs, .error e) => (reqs, .error e)

/-- `CheckableMixin._as_checked` (src/jkit/_base.py lines 64-68):
`if not CONFIG.resource_check.force_check_safe_data: self._checked = True`.
Returns the new `_checked` value. -/
def asChecked (cfg : ResourceCheckConfig) (checked : Bool) : Bool :=
  if !cfg.force_check_safe_data then true else checked

/-- The common shape of every data-fetching operation (`User.info`,
`Collection.iter_articles`, ...): `await self._require_check()` first; only
if it returns normally is the fetch itself performed.  `fetch` is the
operation's own transport interaction (its requests and its outcome). -/
def dataFetchOp {α : Type} (cfg : ResourceCheckConfig)
    (checkFunc : Bool → List ApiRequest × Except PyErr Bool) (checked : Bool)
    (fetch : List ApiRequest × Except PyErr α) : List ApiRequest × Except PyErr α :=
  match requireCheck cfg checkFunc checked with
  | (reqs, .error e) => (reqs, .error e)
  | (reqs, .ok _) => (reqs ++ fetch.1, fetch.2)

/-- The `_checked` flag after an operation: on an exception the assignment
is never reached, so the flag keeps its previous value. -/
def flagAfter (old : Bool) (r : Except PyErr Bool) : Bool :=
  match r with
  | .ok b => b
  | .error _ => old

/-- A data-fetch operation touches `_checked` only through
`_require_check` (the fetch bodies in `src/` never assign `_checked`). -/
def dataFetchFlagAfter (cfg : ResourceCheckConfig)
    (checkFunc : Bool → List ApiRequest × Except PyErr Bool)
    (checked : Bool) : Bool :=
  flagAfter checked (requireCheck cfg checkFunc checked).2

/-- C1: `_require_check` runs the existence check iff the object is
unchecked and the global auto-check policy is enabled; with auto-check on,
a data fetch on an unchecked resource whose entity does not exist raises
`ResourceUnavailableError`, and any other transport error propagates
unchanged. -/
theorem c1_require_check_contract (α : Type) :
    (∀ cfg slug resp checked,
      (requireCheck cfg (User.check slug resp) checked).1 =
        if !checked && cfg.auto_check then [.userCheckReq slug] else []) ∧
    (∀ cfg slug checked (e : HTTPStatusError)
      (fetch : List ApiRequest × Except PyErr α),
      cfg.auto_check = true → checked = false →
      e.statusCode = _RESOURCE_UNAVAILABLE_STATUS_CODE →
      (dataFetchOp cfg (User.check slug (.error e)) checked fetch).2 =
        .error (.resourceUnavailable
          ("用户 https://www.jianshu.com/u/" ++ slug ++ " 不存在或已注销 / 被封禁"))) ∧
    (∀ cfg slug checked (e : HTTPStatusError)
      (fetch : List ApiRequest × Except PyErr α),
      cfg.auto_check = true → checked = false →
      e.statusCode ≠ _RESOURCE_UNAVAILABLE_STATUS_CODE →
      (dataFetchOp cfg (User.check slug (.error e)) checked fetch).2 =
        .error (.httpStatusError e)) := by
  refine ⟨?_, ?_, ?_⟩
  · intro cfg slug resp checked
    cases checked with
    | true => simp [requireCheck]
    | false =>
      cases h : cfg.auto_check with
      | false => simp [requireCheck, h]
      | true =>
        cases resp with
        | ok _ => simp [requireCheck, User.check, h]
        | error e =>
          by_cases hc : e.statusCode = _RESOURCE_UNAVAILABLE_STATUS_CODE <;>
            simp [requireCheck, User.check, h, hc]
  · intro cfg slug checked e fetch hauto hchecked hcode
    subst hchecked
    simp [dataFetchOp, requireCheck, User.check, hauto, hcode]
  · intro cfg slug checked e fetch hauto hchecked hcode
    subst hchecked
    simp [dataFetchOp, requireCheck, User.check, hauto, hcode]

/-- Witness for C1 at concrete inputs. -/
theorem c1_require_check_contract_witness :
    (requireCheck defaultResourceCheckConfig
      (User.check "ea36c8d8aabc" (.ok ())) false).1 = [.userCheckReq "ea36c8d8aabc"] ∧
    (dataFetchOp defaultResourceCheckConfig
      (User.check "ea36c8d8aabc" (.error ⟨404, 0⟩)) false
      (([] : List ApiRequest), (.ok 7 : Except PyErr Nat))).2 =
      .error (.resourceUnavailable
        ("用户 https://www.jianshu.com/u/" ++ "ea36c8d8aabc" ++ " 不存在或已注销 / 被封禁")) ∧
    (dataFetchOp defaultResourceCheckConfig
      (User.check "ea36c8d8aabc" (.error ⟨500, 0⟩)) false
      (([] : List ApiRequest), (.ok 7 : Except PyErr Nat))).2 =
      .error (.httpStatusError ⟨500, 0⟩) :=
  ⟨by rw [(c1_require_check_contract Nat).1]; rfl,
   (c1_require_check_contract Nat).2.1 _ _ _ _ _ rfl rfl rfl,
   (c1_require_check_contract Nat).2.2 _ _ _ _ _ rfl rfl (by decide)⟩

/-- C2: the checked flag is monotonic — false on fresh construction, set
true by a successful `check()` and by the pre-checked conversion path
(`_as_checked`, under the default `force_check_safe_data = False` policy),
and never reset to false by `check`, `_require_check`, `_as_checked` or a
data fetch. -/
theorem c2_checked_flag_monotonic :
    checkableMixin_init = false ∧
    (∀ slug checked, (User.check slug (.ok ()) checked).2 = .ok true) ∧
    (∀ cfg : ResourceCheckConfig, cfg.force_check_safe_data = false →
      asChecked cfg checkableMixin_init = true) ∧
    (∀ slug resp checked, checked = true →
      flagAfter checked (User.check slug resp checked).2 = true) ∧
    (∀ cfg slug resp checked, checked = true →
      flagAfter checked (requireCheck cfg (User.check slug resp) checked).2 = true) ∧
    (∀ cfg slug resp checked, checked = true →
      dataFetchFlagAfter cfg (User.check slug resp) checked = true) ∧
    (∀ cfg checked, checked = true → asChecked cfg checked = true) := by
  refine ⟨rfl, fun slug checked => rfl, ?_, ?_, ?_, ?_, ?_⟩
  · intro cfg h
    simp [asChecked, checkableMixin_init, h]
  · intro slug resp checked h
    subst h
    cases resp with
    | ok _ => rfl
    | error e =>
      by_cases hc : e.statusCode = _RESOURCE_UNAVAILABLE_STATUS_CODE <;>
        simp [User.check, flagAfter, hc]
  · intro cfg slug resp checked h
    subst h
    simp [requireCheck, flagAfter]
  · intro cfg slug resp checked h
    subst h
    simp [dataFetchFlagAfter, requireCheck, flagAfter]
  · intro cfg checked h
    subst h
    simp [asChecked]

/-- Witness for C2 at concrete inputs. -/
theorem c2_checked_flag_monotonic_witness :
    asChecked defaultResourceCheckConfig checkableMixin_init = true ∧
    flagAfter true (User.check "ea36c8d8aabc" (.error ⟨500, 0⟩) true).2 = true ∧
    dataFetchFlagAfter defaultResourceCheckConfig
      (User.check "ea36c8d8aabc" (.error ⟨404, 0⟩)) true = true :=
  ⟨c2_checked_flag_monotonic.2.2.1 _ rfl,
   c2_checked_flag_monotonic.2.2.2.1 _ _ _ rfl,
   c2_checked_flag_monotonic.2.2.2.2.2.1 defaultResourceCheckConfig
     "ea36c8d8aabc" (.error ⟨404, 0⟩) _ rfl⟩

/-! ## Typed-record validation (`src/jkit/_base.py`, `DataObject._validate`;
`src/jkit/config.py`, `_DataValidationConfig`; representative record:
`BenefitCardsInfoData` from `src/jkit/private/assets.py`) -/

/-- `DataObject._validate` (src/jkit/_base.py lines 19-26):
if validation is disabled return `self` unchanged; else re-serialize and
re-convert through the constraint schema (`convertFunc` embeds
`convert(to_builtins(self), type=self.__class__)`), wrapping a conversion
failure in `ValidationError`. -/
def dataObject_validate {α : Type} (enabled : Bool)
    (convertFunc : α → Except String α) (self : α) : Except PyErr α :=
  if !enabled then .ok self
  else
    match convertFunc self with
    | .ok v => .ok v
    | .error m => .error (.validationError m)

/-- `_DataValidationConfig.enabled` default (src/jkit/config.py): `True`. -/
def defaultDataValidationEnabled : Bool := true

/-- `BenefitCardsInfoData` (src/jkit/private/assets.py lines 50-52):
`total_amount: NonNegativeInt`, `estimated_benefits_percent: Percentage`.
Field values are embedded unconstrained (msgspec structs do not validate at
construction); the declared constraints live in the conversion schema. -/
structure BenefitCardsInfoData where
  total_amount : Int
  estimated_benefits_percent : ℚ
  deriving DecidableEq, Repr

/-- Modelled from the spec: the msgspec constraint schema for
`BenefitCardsInfoData` (the constraint-type declarations are in a module
absent from `src/`; spec §4.2 — validation re-serializes the instance
through the constraint schema and reports the failing field and violated
constraint).  `NonNegativeInt` is an int ≥ 0 and `Percentage` a float in
[0, 1]. -/
def BenefitCardsInfoData.convertSchema (r : BenefitCardsInfoData) :
    Except String BenefitCardsInfoData :=
  if r.total_amount < 0 then
    .error "Expected `int` >= 0 - at `$.total_amount`"
  else if r.estimated_benefits_percent < 0 ∨ 1 < r.estimated_benefits_percent then
    .error "Expected `float` >= 0.0 and <= 1.0 - at `$.estimated_benefits_percent`"
  else .ok ⟨r.total_amount, r.estimated_benefits_percent⟩

/-- A decoded JSON payload for the benefit-cards-info endpoint; `none`
embeds an absent key. -/
structure BenefitCardsInfoPayload where
  total_amount18 : Option Int
  total_estimated_benefits : Option ℚ
  deriving DecidableEq, Repr

/-- Python `data[key]`: raises `KeyError` when the key is absent. -/
def dictGet {α : Type} (key : String) (v : Option α) : Except PyErr α :=
  match v with
  | some a => .ok a
  | none => .error (.keyError key)

/-- Modelled from the spec: `normalize_assets_amount_precise`
(`jkit/_normalization.py`, absent from `src/`) — scaled-integer currency
amount divided by 10^18 into an exact decimal (spec §6). -/
def normalize_assets_amount_precise (x : Int) : ℚ := (x : ℚ) / (10 ^ 18 : ℚ)

/-- Modelled from the spec: `normalize_percentage` — percentage scaling by
1/100 (spec §6). -/
def normalize_percentage (x : ℚ) : ℚ := x / 100

/-- Python `int(q)`: truncation toward zero. -/
def pyIntOfRat (q : ℚ) : Int := if 0 ≤ q then ⌊q⌋ else ⌈q⌉

/-- `Assets.benefit_cards_info` (src/jkit/private/assets.py lines 147-162),
record-construction part: read the payload fields (`data["total_amount18"]`,
`data["total_estimated_benefits"]`), normalize them, construct the record
and run `._validate()`. -/
def Assets.benefit_cards_info (enabled : Bool) (data : BenefitCardsInfoPayload) :
    Except PyErr BenefitCardsInfoData :=
  match dictGet "total_amount18" data.total_amount18 with
  | .error e => .error e
  | .ok t =>
    match dictGet "total_estimated_benefits" data.total_estimated_benefits with
    | .error e => .error e
    | .ok p =>
      dataObject_validate enabled BenefitCardsInfoData.convertSchema
        ⟨pyIntOfRat (normalize_assets_amount_precise t), normalize_percentage p⟩

/-- Counterexample to C6: a payload missing a required field fails with a
`KeyError` raised by the field access during record construction, not with
the validation error the claim promises. -/
theorem c6_validation_toggle_counterexample :
    Assets.benefit_cards_info true ⟨none, some 50⟩ =
      .error (.keyError "total_amount18") ∧
    (.error (.keyError "total_amount18") :
        Except PyErr BenefitCardsInfoData) ≠
      .error (.validationError "Expected `int` >= 0 - at `$.total_amount`") := by
  constructor
  · rfl
  · simp

/-- C6 (amended): with validation enabled, a record whose field values
violate a declared constraint (e.g. a negative value in a non-negative
field) raises a validation error naming the failing field and constraint
before the record is returned; a payload missing a required field instead
fails with a key-lookup error during record construction; with the toggle
disabled, validation performs no check and returns the record as
constructed. -/
theorem c6_validation_toggle_amended :
    (∀ r : BenefitCardsInfoData, r.total_amount < 0 →
      dataObject_validate true BenefitCardsInfoData.convertSchema r =
        .error (.validationError "Expected `int` >= 0 - at `$.total_amount`")) ∧
    Assets.benefit_cards_info true ⟨some (-(3 * 10 ^ 18)), some 50⟩ =
      .error (.validationError "Expected `int` >= 0 - at `$.total_amount`") ∧
    (∀ p : BenefitCardsInfoPayload, p.total_amount18 = none →
      Assets.benefit_cards_info true p = .error (.keyError "total_amount18")) ∧
    (∀ r : BenefitCardsInfoData,
      dataObject_validate false BenefitCardsInfoData.convertSchema r = .ok r) := by
  refine ⟨?_, ?_, ?_, fun r => rfl⟩
  · intro r h
    simp [dataObject_validate, BenefitCardsInfoData.convertSchema, h]
  · show dataObject_validate true BenefitCardsInfoData.convertSchema _ = _
    have hq : normalize_assets_amount_precise (-(3 * 10 ^ 18)) = ((-3 : Int) : ℚ) := by
      norm_num [normalize_assets_amount_precise]
    have ht : pyIntOfRat (normalize_assets_amount_precise (-(3 * 10 ^ 18))) = -3 := by
      rw [hq]
      unfold pyIntOfRat
      rw [if_neg (by norm_num : ¬(0 : ℚ) ≤ ((-3 : Int) : ℚ))]
      exact Int.ceil_intCast (-3)
    rw [ht]
    simp [dataObject_validate, BenefitCardsInfoData.convertSchema]
  · intro p h
    simp [Assets.benefit_cards_info, h, dictGet]
  -- toggle off: `_validate` returns `self` without conversion

/-- Witness for C6 (amended) at concrete inputs. -/
theorem c6_validation_toggle_amended_witness :
    dataObject_validate true BenefitCardsInfoData.convertSchema ⟨-7, 1/2⟩ =
      .error (.validationError "Expected `int` >= 0 - at `$.total_amount`") ∧
    Assets.benefit_cards_info true ⟨none, some 50⟩ =
      .error (.keyError "total_amount18") ∧
    dataObject_validate false BenefitCardsInfoData.convertSchema ⟨-7, 1/2⟩ =
      .ok ⟨-7, 1/2⟩ :=
  ⟨c6_validation_toggle_amended.1 ⟨-7, 1/2⟩ (by decide),
   c6_validation_toggle_amended.2.2.1 ⟨none, some 50⟩ rfl,
   c6_validation_toggle_amended.2.2.2 ⟨-7, 1/2⟩⟩

/-- C10: validation is semantically the identity on in-contract records,
and with validation disabled it returns the very same record unchanged for
all records. -/
theorem c10_validation_identity (α : Type) (convertFunc : α → Except String α) :
    (∀ r : BenefitCardsInfoData, 0 ≤ r.total_amount →
      0 ≤ r.estimated_benefits_percent → r.estimated_benefits_percent ≤ 1 →
      dataObject_validate true BenefitCardsInfoData.convertSchema r = .ok r) ∧
    (∀ r : α, dataObject_validate false convertFunc r = .ok r) := by
  constructor
  · intro r h1 h2 h3
    have hc1 : ¬r.total_amount < 0 := not_lt.mpr h1
    have hc2 : ¬(r.estimated_benefits_percent < 0 ∨
        1 < r.estimated_benefits_percent) := by
      push_neg
      exact ⟨h2, h3⟩
    simp only [dataObject_validate, BenefitCardsInfoData.convertSchema,
      if_neg hc1, if_neg hc2, Bool.not_true, if_false]
    rfl
  · intro r
    rfl

/-- Witness for C10 at concrete inputs. -/
theorem c10_validation_identity_witness :
    dataObject_validate true BenefitCardsInfoData.convertSchema ⟨12, 3/4⟩ =
      .ok ⟨12, 3/4⟩ ∧
    dataObject_validate false BenefitCardsInfoData.convertSchema ⟨-7, 9⟩ =
      .ok ⟨-7, 9⟩ :=
  ⟨(c10_validation_identity BenefitCardsInfoData
      BenefitCardsInfoData.convertSchema).1 ⟨12, 3/4⟩
      (by decide) (by norm_num) (by norm_num),
   (c10_validation_identity BenefitCardsInfoData
      BenefitCardsInfoData.convertSchema).2 ⟨-7, 9⟩⟩

/-! ## Paginated iteration (`src/jkit/collection.py`,
`Collection.iter_articles`; `src/jkit/private/assets.py`,
`Assets.iter_transactions`).

An iterator is embedded as a function of the scripted transport responses
(`script`: the successive page payloads the endpoint would return),
producing the requests issued and the items yielded.  An exhausted script
means the generator is still suspended awaiting the next response; the
per-item field mapping and validation are orthogonal to the cursor
behaviour and the page payload items are left opaque. -/

/-- `Collection.iter_articles` loop body (src/jkit/collection.py lines
172-221): request page `now_page`; stop on an empty page; otherwise yield
the page's items and continue with `now_page + 1`. -/
def Collection.iterArticlesGo {α : Type} (slug : String) (orderedBy : String)
    (count : Nat) (nowPage : Nat) (script : List (List α)) :
    List ApiRequest × List α :=
  match script with
  | [] => ([], [])
  | page :: rest =>
    let req := ApiRequest.collectionArticlesReq slug nowPage count orderedBy
    if page.isEmpty then ([req], [])
    else
      let next := Collection.iterArticlesGo slug orderedBy count (nowPage + 1) rest
      (req :: next.1, page ++ next.2)

/-- The `order_by` parameter mapping of `Collection.iter_articles`
(`{"ADD_TIME": "time", "LAST_COMMENT_TIME": "comment_time",
"POPULARITY": "hot"}`). -/
inductive CollectionOrderBy where
  | ADD_TIME
  | LAST_COMMENT_TIME
  | POPULARITY
  deriving DecidableEq, Repr

/-- The wire name of a `CollectionOrderBy`. -/
def CollectionOrderBy.wireName : CollectionOrderBy → String
  | .ADD_TIME => "time"
  | .LAST_COMMENT_TIME => "comment_time"
  | .POPULARITY => "hot"

/-- `Collection.iter_articles` (cursor skeleton): start at the
caller-supplied `start_page`. -/
def Collection.iter_articles {α : Type} (slug : String)
    (startPage : Nat) (orderBy : CollectionOrderBy) (pageSize : Nat)
    (script : List (List α)) : List ApiRequest × List α :=
  Collection.iterArticlesGo slug orderBy.wireName pageSize startPage script

/-- One decoded item of the wallet-transactions payload; only its `id` is
inspected by the cursor logic. -/
structure TxItem where
  id : Int
  deriving DecidableEq, Repr

/-- Python truthiness of `current_max_id` (`None` and `0` are falsy). -/
def pyTruthy : Option Int → Bool
  | none => false
  | some n => n != 0

/-- The request `Assets.iter_transactions` issues for one page: params are
`{"since_id": min_id, "max_id": current_max_id}` if `current_max_id` is
truthy, else `{"since_id": min_id}`. -/
def assetsPageRequest (path : String) (minId : Int) (cur : Option Int) : ApiRequest :=
  .assetsTransactionsReq path minId (if pyTruthy cur then cur else none)

/-- `Assets.iter_transactions` loop body (src/jkit/private/assets.py lines
76-111): request a page bounded by `current_max_id`; stop when the
`"transactions"` marker field is empty; otherwise set `current_max_id` to
the last item's id, yield the page and continue. -/
def Assets.iterTransactionsGo (path : String) (minId : Int)
    (currentMaxId : Option Int) (script : List (List TxItem)) :
    List ApiRequest × List TxItem :=
  match script with
  | [] => ([], [])
  | page :: rest =>
    let req := assetsPageRequest path minId currentMaxId
    if page.isEmpty then ([req], [])
    else
      let newMax := (page.getLast?).map TxItem.id
      let next := Assets.iterTransactionsGo path minId newMax rest
      (req :: next.1, page ++ next.2)

/-- The `type` parameter of `Assets.iter_transactions`. -/
inductive AssetsTransactionsKind where
  | FP
  | FTN
  deriving DecidableEq, Repr

/-- `Assets.iter_transactions` (cursor skeleton): path selection per type,
opaque-id cursor seeded with the caller's `max_id` (default `None`). -/
def Assets.iter_transactions (kind : AssetsTransactionsKind) (minId : Int)
    (maxId : Option Int) (script : List (List TxItem)) :
    List ApiRequest × List TxItem :=
  Assets.iterTransactionsGo
    (match kind with
     | .FP => "/asimov/fp_wallets/transactions"
     | .FTN => "/asimov/fp_wallets/jsb_transactions")
    minId maxId script

theorem iterArticlesGo_characterization {α : Type} (slug orderedBy : String)
    (count : Nat) (post : List (List α)) :
    ∀ (pre : List (List α)) (nowPage : Nat), (∀ p ∈ pre, p ≠ []) →
    Collection.iterArticlesGo slug orderedBy count nowPage (pre ++ [] :: post) =
      ((List.range' nowPage (pre.length + 1)).map
        (fun pg => ApiRequest.collectionArticlesReq slug pg count orderedBy),
       pre.flatten) := by
  intro pre
  induction pre with
  | nil =>
    intro nowPage _
    simp [Collection.iterArticlesGo, List.range']
  | cons p pre ih =>
    intro nowPage hne
    have hp : p ≠ [] := hne p (List.mem_cons_self p pre)
    have hrest : ∀ q ∈ pre, q ≠ [] := fun q hq => hne q (List.mem_cons_of_mem p hq)
    have hp' : ¬(p.isEmpty = true) := by simpa using hp
    rw [List.cons_append]
    rw [Collection.iterArticlesGo]
    rw [if_neg hp']
    rw [ih (nowPage + 1) hrest]
    simp [List.range' , List.flatten]

theorem iterTransactionsGo_characterization (path : String) (minId : Int)
    (post : List (List TxItem)) :
    ∀ (pre : List (List TxItem)) (initCur : Option Int), (∀ p ∈ pre, p ≠ []) →
    Assets.iterTransactionsGo path minId initCur (pre ++ [] :: post) =
      (assetsPageRequest path minId initCur ::
        pre.map (fun p => assetsPageRequest path minId ((p.getLast?).map TxItem.id)),
       pre.flatten) := by
  intro pre
  induction pre with
  | nil =>
    intro initCur _
    simp [Assets.iterTransactionsGo]
  | cons p pre ih =>
    intro initCur hne
    have hp : p ≠ [] := hne p (List.mem_cons_self p pre)
    have hrest : ∀ q ∈ pre, q ≠ [] := fun q hq => hne q (List.mem_cons_of_mem p hq)
    have hp' : ¬(p.isEmpty = true) := by simpa using hp
    rw [List.cons_append]
    rw [Assets.iterTransactionsGo]
    rw [if_neg hp']
    simp only [ih ((p.getLast?).map TxItem.id) hrest]
    simp [List.flatten]

/-- C7: pagination is forward-only and lazy — the page-number cursor of
`Collection.iter_articles` starts at the caller's start page and issues
consecutive page numbers, one per request; the opaque-id cursor of
`Assets.iter_transactions` bounds each subsequent request by the previous
page's last item id; iteration ends exactly at the first empty page (empty
`"transactions"` marker field), after which no further request is issued,
and the yielded items are exactly the concatenation of the non-empty
pages. -/
theorem c7_pagination_protocol (α : Type) :
    (∀ (slug : String) (startPage pageSize : Nat) (orderBy : CollectionOrderBy)
      (pre post : List (List α)), (∀ p ∈ pre, p ≠ []) →
      Collection.iter_articles slug startPage orderBy pageSize (pre ++ [] :: post) =
        ((List.range' startPage (pre.length + 1)).map
          (fun pg => ApiRequest.collectionArticlesReq slug pg pageSize
            orderBy.wireName),
         pre.flatten)) ∧
    (∀ (kind : AssetsTransactionsKind) (minId : Int) (maxId : Option Int)
      (path : String) (pre post : List (List TxItem)),
      (∀ p ∈ pre, p ≠ []) →
      Assets.iterTransactionsGo path minId maxId (pre ++ [] :: post) =
        (assetsPageRequest path minId maxId ::
          pre.map (fun p => assetsPageRequest path minId
            ((p.getLast?).map TxItem.id)),
         pre.flatten) ∧
      Assets.iter_transactions kind minId maxId [] = ([], [])) ∧
    (∀ (path : String) (minId k : Int), k ≠ 0 →
      assetsPageRequest path minId (some k) =
        .assetsTransactionsReq path minId (some k)) := by
  refine ⟨?_, ?_, ?_⟩
  · intro slug startPage pageSize orderBy pre post hne
    exact iterArticlesGo_characterization slug orderBy.wireName pageSize post
      pre startPage hne
  · intro kind minId maxId path pre post hne
    refine ⟨iterTransactionsGo_characterization path minId post pre maxId hne, ?_⟩
    cases kind <;> rfl
  · intro path minId k hk
    simp [assetsPageRequest, pyTruthy, hk]

/-- Witness for C7 at concrete inputs: three pages, the third empty. -/
theorem c7_pagination_protocol_witness :
    Collection.iter_articles "xxdqwe65" 1 .ADD_TIME 20
      ([[10, 11], [12]] ++ [] :: [[99]]) =
      ([.collectionArticlesReq "xxdqwe65" 1 20 "time",
        .collectionArticlesReq "xxdqwe65" 2 20 "time",
        .collectionArticlesReq "xxdqwe65" 3 20 "time"],
       ([10, 11, 12] : List Nat)) ∧
    Assets.iterTransactionsGo "/asimov/fp_wallets/transactions" 0 none
      ([[⟨12⟩, ⟨9⟩], [⟨3⟩]] ++ [] :: []) =
      ([.assetsTransactionsReq "/asimov/fp_wallets/transactions" 0 none,
        .assetsTransactionsReq "/asimov/fp_wallets/transactions" 0 (some 9),
        .assetsTransactionsReq "/asimov/fp_wallets/transactions" 0 (some 3)],
       [⟨12⟩, ⟨9⟩, ⟨3⟩]) := by
  constructor
  · have h := (c7_pagination_protocol Nat).1 "xxdqwe65" 1 20 .ADD_TIME
      [[10, 11], [12]] [[99]] (by decide)
    rw [h]
    rfl
  · have h := ((c7_pagination_protocol Nat).2.1 .FP 0 none
      "/asimov/fp_wallets/transactions" [[⟨12⟩, ⟨9⟩], [⟨3⟩]] [] (by decide)).1
    rw [h]
    rfl

/-! ## Wallet conversion (`src/jkit/private/assets.py`,
`Assets.fp_to_ftn` lines 200-226 / `Assets.ftn_to_fp` lines 229-254) -/

/-- Modelled from the spec: `jkit/constants.py` is absent from `src/`; this
is the platform-specific "action failed" status inspected by the wallet
operations (spec §4.6). -/
def _ASSETS_ACTION_FAILED_STATUS_CODE : Nat := 422

/-- `Assets.fp_to_ftn`: `amount <= 0` raises `ValueError` locally before
any request; otherwise the exchange request is issued, and on an
`HTTPStatusError` with the action-failed status the embedded error code is
mapped (18002 → `BalanceNotEnoughError`, 18005 →
`WeeklyConvertLimitExceededError`); any other code or status re-raises the
original transport error.  Returns (requests issued, outcome). -/
def Assets.fp_to_ftn (amount : ℚ) (resp : Except HTTPStatusError Unit) :
    List ApiRequest × Except PyErr Unit :=
  if amount ≤ 0 then ([], .error (.valueError "转换的简书钻数量必须大于 0"))
  else
    ([.walletExchangeReq "/asimov/fp_wallets/exchange_jsb" amount],
      match resp with
      | .ok _ => .ok ()
      | .error e =>
        if e.statusCode = _ASSETS_ACTION_FAILED_STATUS_CODE then
          if e.firstErrorCode = 18002 then .error (.balanceNotEnough "简书钻余额不足")
          else if e.firstErrorCode = 18005 then
            .error (.weeklyConvertLimitExceeded "超出每周转换额度限制")
          else .error (.httpStatusError e)
        else .error (.httpStatusError e))

/-- `Assets.ftn_to_fp`: identical contract in the opposite direction
(`/asimov/fp_wallets/exchange_jsd`). -/
def Assets.ftn_to_fp (amount : ℚ) (resp : Except HTTPStatusError Unit) :
    List ApiRequest × Except PyErr Unit :=
  if amount ≤ 0 then ([], .error (.valueError "转换的简书贝数量必须大于 0"))
  else
    ([.walletExchangeReq "/asimov/fp_wallets/exchange_jsd" amount],
      match resp with
      | .ok _ => .ok ()
      | .error e =>
        if e.statusCode = _ASSETS_ACTION_FAILED_STATUS_CODE then
          if e.firstErrorCode = 18002 then .error (.balanceNotEnough "简书贝余额不足")
          else if e.firstErrorCode = 18005 then
            .error (.weeklyConvertLimitExceeded "超出每周转换额度限制")
          else .error (.httpStatusError e)
        else .error (.httpStatusError e))

/-- C8: the wallet conversion error contract — non-positive amounts fail
locally with no request issued; on the action-failed status, embedded code
18002 maps to the insufficient-balance error and 18005 to the weekly-limit
error; any other embedded code or any other failure status re-raises the
original transport error unchanged. -/
theorem c8_wallet_conversion_contract :
    (∀ amount resp, amount ≤ 0 →
      Assets.fp_to_ftn amount resp =
        ([], .error (.valueError "转换的简书钻数量必须大于 0")) ∧
      Assets.ftn_to_fp amount resp =
        ([], .error (.valueError "转换的简书贝数量必须大于 0"))) ∧
    (∀ amount (e : HTTPStatusError), 0 < amount →
      e.statusCode = _ASSETS_ACTION_FAILED_STATUS_CODE → e.firstErrorCode = 18002 →
      (Assets.fp_to_ftn amount (.error e)).2 =
        .error (.balanceNotEnough "简书钻余额不足") ∧
      (Assets.ftn_to_fp amount (.error e)).2 =
        .error (.balanceNotEnough "简书贝余额不足")) ∧
    (∀ amount (e : HTTPStatusError), 0 < amount →
      e.statusCode = _ASSETS_ACTION_FAILED_STATUS_CODE → e.firstErrorCode = 18005 →
      (Assets.fp_to_ftn amount (.error e)).2 =
        .error (.weeklyConvertLimitExceeded "超出每周转换额度限制") ∧
      (Assets.ftn_to_fp amount (.error e)).2 =
        .error (.weeklyConvertLimitExceeded "超出每周转换额度限制")) ∧
    (∀ amount (e : HTTPStatusError), 0 < amount →
      e.statusCode = _ASSETS_ACTION_FAILED_STATUS_CODE →
      e.firstErrorCode ≠ 18002 → e.firstErrorCode ≠ 18005 →
      (Assets.fp_to_ftn amount (.error e)).2 = .error (.httpStatusError e) ∧
      (Assets.ftn_to_fp amount (.error e)).2 = .error (.httpStatusError e)) ∧
    (∀ amount (e : HTTPStatusError), 0 < amount →
      e.statusCode ≠ _ASSETS_ACTION_FAILED_STATUS_CODE →
      (Assets.fp_to_ftn amount (.error e)).2 = .error (.httpStatusError e) ∧
      (Assets.ftn_to_fp amount (.error e)).2 = .error (.httpStatusError e)) := by
  refine ⟨?_, ?_, ?_, ?_, ?_⟩
  · intro amount resp h
    constructor <;> simp [Assets.fp_to_ftn, Assets.ftn_to_fp, h]
  · intro amount e h hs hc
    have h' : ¬amount ≤ 0 := not_le.mpr h
    constructor <;> simp [Assets.fp_to_ftn, Assets.ftn_to_fp, h', hs, hc]
  · intro amount e h hs hc
    have h' : ¬amount ≤ 0 := not_le.mpr h
    constructor <;> simp [Assets.fp_to_ftn, Assets.ftn_to_fp, h', hs, hc]
  · intro amount e h hs hc1 hc2
    have h' : ¬amount ≤ 0 := not_le.mpr h
    constructor <;> simp [Assets.fp_to_ftn, Assets.ftn_to_fp, h', hs, hc1, hc2]
  · intro amount e h hs
    have h' : ¬amount ≤ 0 := not_le.mpr h
    constructor <;> simp [Assets.fp_to_ftn, Assets.ftn_to_fp, h', hs]

/-- Witness for C8 at concrete inputs (amounts 0, -5 and 10; statuses 422
and 500; embedded codes 18002, 18005 and 99999). -/
theorem c8_wallet_conversion_contract_witness :
    Assets.fp_to_ftn 0 (.ok ()) =
      ([], .error (.valueError "转换的简书钻数量必须大于 0")) ∧
    Assets.fp_to_ftn (-5) (.ok ()) =
      ([], .error (.valueError "转换的简书钻数量必须大于 0")) ∧
    (Assets.fp_to_ftn 10 (.error ⟨422, 18002⟩)).2 =
      .error (.balanceNotEnough "简书钻余额不足") ∧
    (Assets.ftn_to_fp 10 (.error ⟨422, 18005⟩)).2 =
      .error (.weeklyConvertLimitExceeded "超出每周转换额度限制") ∧
    (Assets.fp_to_ftn 10 (.error ⟨422, 99999⟩)).2 =
      .error (.httpStatusError ⟨422, 99999⟩) ∧
    (Assets.fp_to_ftn 10 (.error ⟨500, 18002⟩)).2 =
      .error (.httpStatusError ⟨500, 18002⟩) :=
  ⟨(c8_wallet_conversion_contract.1 0 (.ok ()) (by norm_num)).1,
   (c8_wallet_conversion_contract.1 (-5) (.ok ()) (by norm_num)).1,
   (c8_wallet_conversion_contract.2.1 10 ⟨422, 18002⟩
     (by norm_num) rfl rfl).1,
   (c8_wallet_conversion_contract.2.2.1 10 ⟨422, 18005⟩
     (by norm_num) rfl rfl).2,
   (c8_wallet_conversion_contract.2.2.2.1 10 ⟨422, 99999⟩
     (by norm_num) rfl (by decide) (by decide)).1,
   (c8_wallet_conversion_contract.2.2.2.2 10 ⟨500, 18002⟩
     (by norm_num) (by decide)).1⟩

/-! ## Payment-channel decoding (`src/jkit/jpep/ftn_macket.py`,
`FtnMacket.iter_orders` lines 92-124) -/

/-- The fixed 3-member payment-channel set
(`FtnMarketOrderSupportedPaymentChannelsType`). -/
inductive PaymentChannel where
  | WECHAT_PAY
  | ALIPAY
  | ANT_CREDIT_PAY
  deriving DecidableEq, Repr

/-- The flag dictionary `{1: "WECHAT_PAY", 2: "ALIPAY", 3: "ANT_CREDIT_PAY"}`;
any other key raises `KeyError`. -/
def payTypeFlagToChannel (n : Int) : Except PyErr PaymentChannel :=
  if n = 1 then .ok .WECHAT_PAY
  else if n = 2 then .ok .ALIPAY
  else if n = 3 then .ok .ANT_CREDIT_PAY
  else .error (.keyError (toString n))

/-- Python `str.split(sep)` for a single-character separator, on
`List Char`. -/
def pySplitOnChar (sep : Char) : List Char → List (List Char)
  | [] => [[]]
  | c :: rest =>
    let r := pySplitOnChar sep rest
    if c = sep then [] :: r
    else
      match r with
      | [] => [[c]]
      | h :: t => (c :: h) :: t

/-- Decimal-digit string value. -/
def digitsToNat? (l : List Char) : Option Nat :=
  l.foldl (fun acc c =>
    acc.bind (fun n => if c.isDigit then some (n * 10 + (c.toNat - 48)) else none))
    (some 0)

/-- Python `int(x)` on a string: an optional sign followed by decimal
digits; anything else raises `ValueError`. -/
def pyIntOfString (s : String) : Except PyErr Int :=
  match s.toList with
  | [] => .error (.valueError ("invalid literal for int() with base 10: " ++ s))
  | '-' :: rest =>
    match rest, digitsToNat? rest with
    | _ :: _, some n => .ok (-(n : Int))
    | _, _ => .error (.valueError ("invalid literal for int() with base 10: " ++ s))
  | l =>
    match digitsToNat? l with
    | some n => .ok (n : Int)
    | none => .error (.valueError ("invalid literal for int() with base 10: " ++ s))

/-- The `supported_payment_channels` decoding of `FtnMacket.iter_orders`:
`tuple({...}[int(x)] for x in item_user["pay_types"].split("|")) if
item_user["pay_types"] else ()`.  `payTypes = none` embeds absence of the
`pay_types` key from the payload item, on which the subscript access itself
raises `KeyError`; an empty string is falsy and yields the empty tuple. -/
def decodeSupportedPaymentChannels (payTypes : Option String) :
    Except PyErr (List PaymentChannel) :=
  match payTypes with
  | none => .error (.keyError "pay_types")
  | some s =>
    if s ≠ "" then
      ((pySplitOnChar '|' s.toList).map String.mk).mapM (fun x =>
        match pyIntOfString x with
        | .ok n => payTypeFlagToChannel n
        | .error e => .error e)
    else .ok []

/-- Counterexample to C9: absence of the `pay_types` field raises
`KeyError`, it does not decode to the empty set. -/
theorem c9_payment_channel_counterexample :
    decodeSupportedPaymentChannels none = .error (.keyError "pay_types") ∧
    decodeSupportedPaymentChannels none ≠ .ok [] := by
  constructor
  · rfl
  · simp [decodeSupportedPaymentChannels]

/-- C9 (amended): each pipe-delimited flag maps through the fixed
dictionary (1 → WECHAT_PAY, 2 → ALIPAY, 3 → ANT_CREDIT_PAY), so `"1|3"`
decodes to `(WECHAT_PAY, ANT_CREDIT_PAY)`; an empty (falsy) pay-types field
decodes to the empty tuple; an absent pay-types field raises `KeyError`
rather than decoding to the empty set. -/
theorem c9_payment_channel_amended :
    decodeSupportedPaymentChannels (some "1|3") =
      .ok [.WECHAT_PAY, .ANT_CREDIT_PAY] ∧
    decodeSupportedPaymentChannels (some "") = .ok [] ∧
    decodeSupportedPaymentChannels none = .error (.keyError "pay_types") ∧
    payTypeFlagToChannel 1 = .ok .WECHAT_PAY ∧
    payTypeFlagToChannel 2 = .ok .ALIPAY ∧
    payTypeFlagToChannel 3 = .ok .ANT_CREDIT_PAY ∧
    decodeSupportedPaymentChannels (some "2") = .ok [.ALIPAY] ∧
    decodeSupportedPaymentChannels (some "1|2|3") =
      .ok [.WECHAT_PAY, .ALIPAY, .ANT_CREDIT_PAY] := by
  refine ⟨?_, rfl, rfl, rfl, rfl, rfl, ?_, ?_⟩ <;> rfl
